import Mathlib

/-!
Verification of the ESP32 OpenSprinkler WeatherUnderground weather service
(repository `FranzStein/ESP32-OpenSprinkler-WU-WeatherService`).

The development shallowly embeds the V2 program
(`OS_WU_WeatherService_V2.ino` together with the companion translation
unit holding `fetchWUdata`, `deserializeWeatherData`, `jumpTostart`,
`jumpToNextElement`, `sendRequest` and `checkResponse`).

Modelling conventions:
* C `int` is modelled as `Int` (all values involved stay far below any
  machine bound), C `float` as `Rat`; the float arithmetic performed by
  the program (subtraction, multiplication by the constants 4 and 200,
  addition) is modelled exactly.  The C float-to-int conversion on
  assignment truncates toward zero and is modelled by `truncToInt`.
* The byte stream following the array marker is modelled at the
  granularity the program observes it: a list of array elements, each
  element being either a parseable JSON object (`some doc`) or a blob on
  which `deserializeJson` reports an error (`none`).  An empty list means
  the next non-space character is the closing bracket of the array, on
  which `deserializeJson` also errors out.
* ArduinoJson semantics for `doc[key]`: a missing (or wrongly typed)
  field converts to the default value of the target type (0 for numeric
  types); the explicit `| "N/A"` alternative applies only to the
  timestamp string.  `strlcpy` into `char obsTimeLocal[64]` keeps at
  most 63 characters.
* The output buffer `Weather weatherData[]` is a `List Weather`; a store
  `weatherData[i] = w` is `List.set i w` (total, a no-op out of bounds,
  which also lets the zero-length `currentData[0]` declaration of the
  main program be modelled faithfully).
-/

/-- The `Weather` struct of `OS_WU_WeatherService_V2.h`. -/
structure Weather where
  obsTimeLocal : String
  humidityAvg : Int
  tempAvg : Rat
  precipRate : Rat
  precipTotal : Rat
  deriving Repr, DecidableEq

/-- The five fields `deserializeWeatherData` reads from the parsed JSON
document; `none` is an absent (or non-convertible) field. -/
structure JsonDoc where
  obsTimeLocal : Option String
  humidityAvg : Option Int
  tempAvg : Option Rat
  precipRate : Option Rat
  precipTotal : Option Rat
  deriving Repr, DecidableEq

/-- One element of the JSON array behind the marker: `none` when
`deserializeJson` fails on it (malformed object, or the closing bracket
reached), `some doc` when it parses. -/
abbrev ArrayElem := Option JsonDoc

/-- `strlcpy(w.obsTimeLocal, src, sizeof(w.obsTimeLocal))` with
`char obsTimeLocal[64]`: at most 63 characters are kept. -/
def strlcpy64 (s : String) : String :=
  ⟨s.data.take 63⟩

/-- `deserializeWeatherData` (companion unit, lines 48-60): on a parse
error it returns `false` having written nothing; otherwise it fills the
record, defaulting the timestamp to "N/A" (`doc["obsTimeLocal"] | "N/A"`,
truncated by `strlcpy` to 63 characters) and each numeric field to 0
(ArduinoJson default conversion of a missing field). -/
def deserializeWeatherData (elem : ArrayElem) : Option Weather :=
  match elem with
  | none => none
  | some doc =>
      some { obsTimeLocal := strlcpy64 (doc.obsTimeLocal.getD "N/A")
             humidityAvg := doc.humidityAvg.getD 0
             tempAvg := doc.tempAvg.getD 0
             precipRate := doc.precipRate.getD 0
             precipTotal := doc.precipTotal.getD 0 }

/-- `jumpToNextElement` (companion unit, lines 42-46):
`stream.findUntil(",", "]")` succeeds exactly when a comma separates the
just-consumed element from a further one, i.e. when elements remain. -/
def jumpToNextElement (rest : List ArrayElem) : Bool :=
  decide (rest ≠ [])

/-- The read loop of `fetchWUdata` (companion unit, lines 114-124):

    int n = 0;
    while (n < maxData) {
      if (!deserializeWeatherData(client, weatherData[n++])) break;
      if (!jumpToNextElement(client)) break;
    }
    return n;

Note the post-increment: `n` is bumped BEFORE the decode result is
inspected, so the failure paths return with `n` already counting the
element that failed to decode (and whose buffer slot was never
written).  (The C loop tests `n < maxData` before looking at the stream;
matching on the element list first is observationally identical, since
the guard is tested in both branches.) -/
def fetchLoop : List ArrayElem → List Weather → Nat → Nat → Nat × List Weather
  | [], buf, n, maxData =>
      if n < maxData then (n + 1, buf) else (n, buf)
  | e :: rest, buf, n, maxData =>
      if n < maxData then
        match deserializeWeatherData e with
        | none => (n + 1, buf)
        | some w =>
            let buf1 := buf.set n w
            if jumpToNextElement rest then fetchLoop rest buf1 (n + 1) maxData
            else (n + 1, buf1)
      else (n, buf)

/-- State of the `WiFiClientSecure` object local to `fetchWUdata`. -/
structure ClientState where
  connected : Bool
  deriving Repr, DecidableEq

/-- `client.stop()`. -/
def ClientState.stop (_ : ClientState) : ClientState :=
  { connected := false }

/-- The `WiFiClientSecure` destructor runs when the local `client` goes
out of scope, i.e. on every return path of `fetchWUdata`; in the ESP32
Arduino core it calls `stop()`. -/
def ClientState.destroy (c : ClientState) : ClientState :=
  c.stop

/-- Outcome of the environment interactions of one `fetchWUdata` call:
whether `client.connect` succeeds, whether `sendRequest` succeeds,
whether `checkResponse` sees a "200 OK" status line, whether
`jumpTostart` finds the array marker, and the elements of the array
behind the marker. -/
structure FetchInput where
  connectOk : Bool
  sendOk : Bool
  statusOk : Bool
  markerFound : Bool
  elems : List ArrayElem
  deriving Repr, DecidableEq

/-- Result of a `fetchWUdata` call: the returned count, the final
contents of the caller's `weatherData` buffer, whether a connection was
opened, and the state of the client object after the function returned
(destructor included). -/
structure FetchResult where
  count : Nat
  buf : List Weather
  opened : Bool
  client : ClientState
  deriving Repr, DecidableEq

/-- `fetchWUdata` (companion unit, lines 77-127).  Each early error path
is `return 0` with no explicit `stop()`; the local client object is
nevertheless destroyed at scope exit (`ClientState.destroy`).  The loop
path calls `client.stop()` explicitly before returning. -/
def fetchWUdata (inp : FetchInput) (buf : List Weather) (maxData : Nat) :
    FetchResult :=
  if !inp.connectOk then
    { count := 0, buf := buf, opened := false
      client := ClientState.destroy { connected := false } }
  else
    let client : ClientState := { connected := true }
    if !inp.sendOk then
      { count := 0, buf := buf, opened := true, client := client.destroy }
    else if !inp.statusOk then
      { count := 0, buf := buf, opened := true, client := client.destroy }
    else if !inp.markerFound then
      { count := 0, buf := buf, opened := true, client := client.destroy }
    else
      let r := fetchLoop inp.elems buf 0 maxData
      { count := r.1, buf := r.2, opened := true
        client := (client.stop).destroy }

/-- `const int maxbootCount = 11` (main program, line 37). -/
def maxbootCount : Int := 11

/-- `const int maxrainCount = 11` (main program, line 42). -/
def maxrainCount : Int := 11

/-- `const int humidityBase = 65` (main program, line 60). -/
def humidityBase : Int := 65

/-- `const float tempBase = 70.0` (main program, line 61). -/
def tempBase : Rat := 70

/-- `const float precipBase = 0.0` (main program, line 62). -/
def precipBase : Rat := 0

/-- `const int rainDelay = 3` (main program, line 75). -/
def rainDelay : Int := 3

/-- The RTC-memory state surviving deep sleep: `bootCount`,
`raindelayActive`, `raindelayCount` (main program, lines 36-41). -/
structure RTCState where
  bootCount : Int
  raindelayActive : Bool
  raindelayCount : Int
  deriving Repr, DecidableEq

/-- RTC memory on first-ever boot: `int bootCount = 0`,
`boolean raindelayActive = false`, `int raindelayCount = 0`. -/
def initialRTCState : RTCState :=
  { bootCount := 0, raindelayActive := false, raindelayCount := 0 }

/-- An outbound HTTP command to the OpenSprinkler controller: either
`cv?pw=...&rd=<hours>` (set rain delay) or `co?pw=...&wl=<percent>`
(set water level). -/
inductive OSCommand where
  | setRainDelay (hours : Int)
  | setWaterLevel (percent : Int)
  deriving Repr, DecidableEq

/-- The rain-delay counter update of the V2 main program (lines
188-193), reached only on rain:

    if (raindelayCount < maxrainCount) { ++raindelayCount; }
    else { raindelayCount = 0; } -/
def advanceRainCount (c : Int) : Int :=
  if c < maxrainCount then c + 1 else 0

/-- Phase A of the V2 main program (lines 143-208): runs only when the
current-conditions fetch returned `m > 0`.  On rain
(`currentData[0].precipRate > 0`) it sets `raindelayActive`, sends the
rain-delay command exactly when `raindelayCount == 0` (the code guards
on `raindelayActive && raindelayCount == 0`, but `raindelayActive` was
just assigned `true`), then advances `raindelayCount`.  Otherwise it
clears `raindelayActive` and resets `raindelayCount`. -/
def phaseA (m : Nat) (current : Weather) (s : RTCState) :
    RTCState × List OSCommand :=
  if m > 0 then
    if current.precipRate > 0 then
      let cmds := if s.raindelayCount == 0 then [OSCommand.setRainDelay rainDelay] else []
      ({ s with raindelayActive := true
                raindelayCount := advanceRainCount s.raindelayCount }, cmds)
    else
      ({ s with raindelayActive := false, raindelayCount := 0 }, [])
  else
    (s, [])

/-- C float-to-int conversion: truncation toward zero. -/
def truncToInt (q : Rat) : Int :=
  if 0 ≤ q then ⌊q⌋ else ⌈q⌉

/-- The plausibility test of the V2 main program (lines 263-265) applied
to the record it inspects, `historyData[n-2]`:

    (h.tempAvg < 14) || (h.tempAvg > 113) || (h.humidityAvg < 0)
      || (h.humidityAvg > 100) || (h.precipRate < 0) || (h.precipTotal < 0)

negated (the code sets `validhistoryData = false` when the disjunction,
together with `n < 2`, holds). -/
def plausibleRecord (h : Weather) : Bool :=
  !(h.tempAvg < 14 || h.tempAvg > 113 || h.humidityAvg < 0
      || h.humidityAvg > 100 || h.precipRate < 0 || h.precipTotal < 0)

/-- `validhistoryData` (V2 main program, lines 262-269): false when
`n < 2` or when `historyData[n-2]` fails the plausibility test.  The
short-circuit of `||` means `historyData[n-2]` is only read when
`n ≥ 2`; the fetch guarantees `n ≤ 8 =` buffer length, so the lookup is
in bounds then. -/
def validhistoryData (n : Nat) (hist : List Weather) : Bool :=
  if n < 2 then false
  else
    match hist[n-2]? with
    | some h => plausibleRecord h
    | none => false

/-- The Zimmerman computation of the V2 main program (lines 272-287):

    humidityFactor = humidityBase - historyData[n-2].humidityAvg;
    tempFactor = (historyData[n-2].tempAvg - tempBase) * 4;
    precipFactor = (precipBase - historyData[n-2].precipTotal
                                    - currentData[0].precipTotal) * 200;
    percentWatering = humidityFactor + tempFactor + precipFactor + 100;

`humidityFactor` is an `int`, the two other factors are `float`; the sum
is computed in float and truncated on assignment to the `int`
`percentWatering`. -/
def percentWatering (yesterday current : Weather) : Int :=
  let humidityFactor : Int := humidityBase - yesterday.humidityAvg
  let tempFactor : Rat := (yesterday.tempAvg - tempBase) * 4
  let precipFactor : Rat :=
    (precipBase - yesterday.precipTotal - current.precipTotal) * 200
  truncToInt ((humidityFactor : Rat) + tempFactor + precipFactor + 100)

/-- The clamp of the V2 main program (lines 296-301):
`if (percentWatering < 10) percentWatering = 0;`. -/
def clampPercent (p : Int) : Int :=
  if p < 10 then 0 else p

/-- The command part of Phase B of the V2 main program (lines 262-331),
given the history fetch count `n`, the history buffer and
`currentData[0]`: when `validhistoryData` holds, the water-level command
is sent unconditionally with the clamped percentage (the HTTP GET at
lines 313-315 is not guarded by anything else); otherwise no command is
sent. -/
def phaseBcommands (n : Nat) (hist : List Weather) (current : Weather) :
    List OSCommand :=
  if validhistoryData n hist then
    match hist[n-2]? with
    | some yesterday =>
        [OSCommand.setWaterLevel (clampPercent (percentWatering yesterday current))]
    | none => []
  else
    []

/-- The boot-counter update of the V2 main program (lines 334-341), run
unconditionally at the end of every wake cycle:

    if (bootCount < maxbootCount) { ++bootCount; } else { bootCount = 0; } -/
def advanceBootCount (b : Int) : Int :=
  if b < maxbootCount then b + 1 else 0

/-- The environment data consumed by one wake cycle: the result of the
current-conditions fetch (`m`, and the contents of `currentData[0]`
after it) and of the history fetch (`n` and the history buffer). -/
structure CycleInput where
  m : Nat
  current : Weather
  n : Nat
  hist : List Weather
  deriving Repr, DecidableEq

/-- One wake cycle of the V2 main program `setup()` (lines 129-354):
Phase A, then — only when `bootCount == 0` — the history fetch and
Phase B, then the unconditional boot-counter advance. -/
def cycleStep (inp : CycleInput) (s : RTCState) : RTCState × List OSCommand :=
  let a := phaseA inp.m inp.current s
  let cmdsB :=
    if a.1.bootCount == 0 then phaseBcommands inp.n inp.hist inp.current
    else []
  ({ a.1 with bootCount := advanceBootCount a.1.bootCount }, a.2 ++ cmdsB)

/-- Iterated wake cycles from a starting state. -/
def runCycles (inps : List CycleInput) (s : RTCState) : RTCState :=
  match inps with
  | [] => s
  | inp :: rest => runCycles rest (cycleStep inp s).1

/-- `Weather currentData[0];` (V2 main program, line 134): the
current-conditions buffer is declared with zero elements. -/
def currentData : List Weather := []

/-- The capacity passed to the current-conditions fetch at lines
135-136: `fetchWUdata(..., currentData, beginningofObservations, 1)`. -/
def currentFetchCapacity : Nat := 1

/-- A JSON array element carrying all five fields read by the decoder,
with a timestamp that fits the 64-byte `obsTimeLocal` buffer. -/
def completeDoc (d : JsonDoc) : Bool :=
  d.obsTimeLocal.isSome && d.humidityAvg.isSome && d.tempAvg.isSome
    && d.precipRate.isSome && d.precipTotal.isSome
    && decide ((d.obsTimeLocal.getD "").data.length ≤ 63)

/-- Range invariant of the two RTC counters. -/
def countersInRange (s : RTCState) : Prop :=
  0 ≤ s.bootCount ∧ s.bootCount ≤ maxbootCount
    ∧ 0 ≤ s.raindelayCount ∧ s.raindelayCount ≤ maxrainCount

theorem fetchLoop_frame (elems : List ArrayElem) (buf : List Weather)
    (n maxData j : Nat) (hj : j < n) :
    ((fetchLoop elems buf n maxData).2)[j]? = buf[j]? := by
  induction elems generalizing buf n with
  | nil =>
      simp only [fetchLoop]
      split <;> rfl
  | cons e rest ih =>
      simp only [fetchLoop]
      split
      · cases hw : deserializeWeatherData e with
        | none => rfl
        | some w =>
            simp only
            split
            · rw [ih (buf.set n w) (n + 1) (Nat.lt_succ_of_lt hj)]
              exact List.getElem?_set_ne (Nat.ne_of_gt hj)
            · exact List.getElem?_set_ne (Nat.ne_of_gt hj)
      · rfl


theorem fetchLoop_count_all_decodable (elems : List ArrayElem)
    (hne : elems ≠ [])
    (hall : ∀ e ∈ elems, (deserializeWeatherData e).isSome = true) :
    ∀ (buf : List Weather) (n maxData : Nat), n ≤ maxData →
      (fetchLoop elems buf n maxData).1 = min (n + elems.length) maxData := by
  induction elems with
  | nil => exact absurd rfl hne
  | cons e rest ih =>
      intro buf n maxData hn
      obtain ⟨w, hw⟩ := Option.isSome_iff_exists.mp (hall e (List.mem_cons_self e rest))
      by_cases hlt : n < maxData
      · by_cases hr : rest = []
        · subst hr
          simp only [fetchLoop, if_pos hlt, hw, jumpToNextElement]
          simp only [ne_eq, not_true_eq_false, decide_False, Bool.false_eq_true, if_false,
            List.length_cons, List.length_nil]
          omega
        · have hj : jumpToNextElement rest = true := by
            simp [jumpToNextElement, hr]
          simp only [fetchLoop, if_pos hlt, hw, hj, if_true]
          rw [ih hr (fun x hx => hall x (List.mem_cons_of_mem e hx)) _ _ _ hlt]
          simp only [List.length_cons]
          omega
      · simp only [fetchLoop, if_neg hlt, List.length_cons]
        omega

theorem fetchLoop_buf_all_decodable (elems : List ArrayElem)
    (hne : elems ≠ [])
    (hall : ∀ e ∈ elems, (deserializeWeatherData e).isSome = true) :
    ∀ (buf : List Weather) (n maxData : Nat), maxData ≤ buf.length →
      ∀ j, n ≤ j → j < (fetchLoop elems buf n maxData).1 →
        ∃ e, elems[j - n]? = some e ∧
          ((fetchLoop elems buf n maxData).2)[j]? = deserializeWeatherData e := by
  induction elems with
  | nil => exact absurd rfl hne
  | cons e rest ih =>
      intro buf n maxData hbuf j hnj hjc
      obtain ⟨w, hw⟩ := Option.isSome_iff_exists.mp (hall e (List.mem_cons_self e rest))
      by_cases hlt : n < maxData
      · by_cases hr : rest = []
        · subst hr
          simp only [fetchLoop, if_pos hlt, hw, jumpToNextElement] at hjc ⊢
          simp only [ne_eq, not_true_eq_false, decide_False, Bool.false_eq_true, if_false] at hjc ⊢
          have hj0 : j = n := by omega
          subst hj0
          refine ⟨e, by simp, ?_⟩
          rw [List.getElem?_set_self (by omega), hw]
        · have hjm : jumpToNextElement rest = true := by
            simp [jumpToNextElement, hr]
          simp only [fetchLoop, if_pos hlt, hw, hjm, if_true] at hjc ⊢
          rcases Nat.eq_or_lt_of_le hnj with heq | hlt2
          · subst heq
            refine ⟨e, by simp, ?_⟩
            rw [fetchLoop_frame rest (buf.set n w) (n + 1) maxData n (Nat.lt_succ_self n)]
            rw [List.getElem?_set_self (by omega), hw]
          · obtain ⟨e2, he2, hres⟩ :=
              ih hr (fun x hx => hall x (List.mem_cons_of_mem e hx))
                (buf.set n w) (n + 1) maxData (by simpa using hbuf) j hlt2 hjc
            refine ⟨e2, ?_, hres⟩
            have hsub : j - n = (j - (n + 1)) + 1 := by omega
            rw [hsub, List.getElem?_cons_succ]
            exact he2
      · simp only [fetchLoop, if_neg hlt] at hjc
        omega

theorem strlcpy64_eq_self (s : String) (h : s.data.length ≤ 63) :
    strlcpy64 s = s := by
  unfold strlcpy64
  rw [List.take_of_length_le h]

theorem fetchWUdata_success_eq (elems : List ArrayElem) (buf : List Weather)
    (maxData : Nat) :
    fetchWUdata ⟨true, true, true, true, elems⟩ buf maxData
      = { count := (fetchLoop elems buf 0 maxData).1
          buf := (fetchLoop elems buf 0 maxData).2
          opened := true
          client := { connected := false } } := rfl

/-- C1 (amended): for every NONEMPTY well-formed JSON array behind the
marker — each element parses and carries all five fields, its timestamp
at most 63 bytes — and a destination buffer at least `capacity` long,
`fetchWUdata` returns `count = min(numberOfElements, capacity)`, and for
every `i < count` the produced record's `obsTimeLocal`, `humidityAvg`,
`tempAvg`, `precipRate` and `precipTotal` equal the corresponding fields
of the `i`-th source element.  (The unamended claim, quantifying over
empty arrays as well, is refuted by `fetchWUdata_empty_array_cex`.) -/
theorem fetchWUdata_wellformed_nonempty (docs : List JsonDoc)
    (buf : List Weather) (cap : Nat)
    (hne : docs ≠ []) (hcap : cap ≤ buf.length)
    (hcomp : ∀ d ∈ docs, completeDoc d = true) :
    (fetchWUdata ⟨true, true, true, true, docs.map some⟩ buf cap).count
        = min docs.length cap ∧
    ∀ i d, i < (fetchWUdata ⟨true, true, true, true, docs.map some⟩ buf cap).count →
      docs[i]? = some d →
      ∃ w, (fetchWUdata ⟨true, true, true, true, docs.map some⟩ buf cap).buf[i]? = some w ∧
        d.obsTimeLocal = some w.obsTimeLocal ∧
        d.humidityAvg = some w.humidityAvg ∧
        d.tempAvg = some w.tempAvg ∧
        d.precipRate = some w.precipRate ∧
        d.precipTotal = some w.precipTotal := by
  have hmapne : docs.map some ≠ [] := by
    simpa using hne
  have hall : ∀ e ∈ docs.map some, (deserializeWeatherData e).isSome = true := by
    intro e he
    obtain ⟨d, _, rfl⟩ := List.mem_map.mp he
    simp [deserializeWeatherData]
  rw [fetchWUdata_success_eq]
  constructor
  · rw [fetchLoop_count_all_decodable (docs.map some) hmapne hall buf 0 cap (Nat.zero_le cap)]
    simp
  · intro i d hi hdi
    obtain ⟨e, he, hbe⟩ :=
      fetchLoop_buf_all_decodable (docs.map some) hmapne hall buf 0 cap hcap i
        (Nat.zero_le i) hi
    rw [Nat.sub_zero, List.getElem?_map, hdi] at he
    have hed : e = some d := by
      simpa using he.symm
    subst hed
    have hc := hcomp d (List.getElem?_mem hdi)
    simp only [completeDoc, Bool.and_eq_true, decide_eq_true_eq,
      Option.isSome_iff_exists] at hc
    obtain ⟨⟨⟨⟨⟨⟨t, ht⟩, ⟨hu, hhu⟩⟩, ⟨ta, hta⟩⟩, ⟨pr, hpr⟩⟩, ⟨pt, hpt⟩⟩, hlen⟩ := hc
    rw [ht, Option.getD_some] at hlen
    refine ⟨{ obsTimeLocal := t, humidityAvg := hu, tempAvg := ta
              precipRate := pr, precipTotal := pt }, ?_, by rw [ht], by rw [hhu],
            by rw [hta], by rw [hpr], by rw [hpt]⟩
    rw [hbe]
    simp [deserializeWeatherData, ht, hhu, hta, hpr, hpt, strlcpy64_eq_self t hlen]

/-- C1 witness: a two-element well-formed array fetched with capacity 2
into a buffer of length 2 yields count `min 2 2` and the source fields
at index 0. -/
theorem fetchWUdata_wellformed_nonempty_witness :
    (fetchWUdata ⟨true, true, true, true,
        [some ⟨some "a", some 50, some 80, some 0, some 0⟩,
         some ⟨some "b", some 60, some 70, some 1, some 2⟩]⟩
      (List.replicate 2 ⟨"G", -1, -1, -1, -1⟩) 2).count = min 2 2 := by
  have h := fetchWUdata_wellformed_nonempty
    [⟨some "a", some 50, some 80, some 0, some 0⟩,
     ⟨some "b", some 60, some 70, some 1, some 2⟩]
    (List.replicate 2 ⟨"G", -1, -1, -1, -1⟩) 2
    (by decide) (by decide) (by decide)
  exact h.1

/-- C1 counterexample: the empty array `[]` is a well-formed JSON array
with zero elements, yet `fetchWUdata` with capacity 1 returns count 1,
not `min 0 1 = 0`: the first `deserializeJson` call fails on the
closing bracket, but `n` was already post-incremented. -/
theorem fetchWUdata_empty_array_cex :
    (fetchWUdata ⟨true, true, true, true, []⟩ [⟨"G", -1, -1, -1, -1⟩] 1).count
      ≠ min 0 1 := by
  decide

/-- C2 (code bug, evaluated at the failing input): a stream whose array
has a malformed FIRST element (k = 0) makes `fetchWUdata` return
count = 1 — not k = 0 as the spec requires — while the record at index
0 keeps its previous garbage contents, which the count presents as a
produced record. -/
theorem fetchWUdata_decode_failure_miscount :
    (fetchWUdata ⟨true, true, true, true, [none]⟩
        (List.replicate 8 ⟨"G", -1, -1, -1, -1⟩) 8).count = 1 ∧
    (fetchWUdata ⟨true, true, true, true, [none]⟩
        (List.replicate 8 ⟨"G", -1, -1, -1, -1⟩) 8).buf
      = List.replicate 8 ⟨"G", -1, -1, -1, -1⟩ := by
  decide

/-- C7 counterexample: a JSON object that parses but carries NONE of the
numeric fields (`humidityAvg`, `imperial.tempAvg`, `imperial.precipRate`,
`imperial.precipTotal`) does NOT make the decode fail: a record is
returned, its numeric fields defaulted to 0.  This refutes the claim
that a missing numeric field fails the whole decode. -/
theorem deserialize_missing_numeric_succeeds :
    deserializeWeatherData (some ⟨some "2021-06-02 05:00", none, none, none, none⟩)
      = some ⟨"2021-06-02 05:00", 0, 0, 0, 0⟩ := by
  decide

/-- C7 (amended): `deserializeWeatherData` fails as a whole exactly when
the JSON object fails to parse; on a parsed object it always returns a
record, with `obsTimeLocal = "N/A"` when the timestamp field is missing
and each missing (or non-convertible) numeric field defaulted to 0. -/
theorem deserialize_defaults (d : JsonDoc) :
    deserializeWeatherData none = none ∧
    ∃ w, deserializeWeatherData (some d) = some w ∧
      (d.obsTimeLocal = none → w.obsTimeLocal = "N/A") ∧
      (d.humidityAvg = none → w.humidityAvg = 0) ∧
      (d.tempAvg = none → w.tempAvg = 0) ∧
      (d.precipRate = none → w.precipRate = 0) ∧
      (d.precipTotal = none → w.precipTotal = 0) := by
  refine ⟨rfl, _, rfl, ?_, ?_, ?_, ?_, ?_⟩ <;> intro h <;> rw [h] <;> rfl

/-- C7 witness for the amended theorem: the all-missing document decodes
to the sentinel record rather than failing. -/
theorem deserialize_defaults_witness :
    ∃ w, deserializeWeatherData (some ⟨none, none, none, none, none⟩) = some w ∧
      w.obsTimeLocal = "N/A" ∧ w.humidityAvg = 0 := by
  obtain ⟨-, w, hw, h1, h2, -, -, -⟩ := deserialize_defaults ⟨none, none, none, none, none⟩
  exact ⟨w, hw, h1 rfl, h2 rfl⟩

/-- C8: on every exit path of `fetchWUdata` that follows a successful
`client.connect` — send failure, bad HTTP status, missing array marker,
decode failure, or full success — the connection is closed before the
function returns (explicitly via `client.stop()` on the read-loop path,
via the `WiFiClientSecure` destructor at scope exit on the early-return
paths). -/
theorem fetchWUdata_closes_connection (inp : FetchInput) (buf : List Weather)
    (maxData : Nat) (hc : inp.connectOk = true) :
    (fetchWUdata inp buf maxData).opened = true ∧
    (fetchWUdata inp buf maxData).client.connected = false := by
  obtain ⟨c, s, st, mk, es⟩ := inp
  cases hc
  unfold fetchWUdata
  cases s <;> cases st <;> cases mk <;>
    simp [ClientState.destroy, ClientState.stop]

/-- C8 witness: a call that fails at the HTTP-status check still ends
with the connection closed. -/
theorem fetchWUdata_closes_connection_witness :
    (fetchWUdata ⟨true, true, false, true, []⟩ [] 1).opened = true ∧
    (fetchWUdata ⟨true, true, false, true, []⟩ [] 1).client.connected = false :=
  fetchWUdata_closes_connection ⟨true, true, false, true, []⟩ [] 1 rfl

theorem fetchLoop_nil_buf (elems : List ArrayElem) :
    ∀ (n maxData : Nat), (fetchLoop elems [] n maxData).2 = [] := by
  induction elems with
  | nil =>
      intro n maxData
      simp only [fetchLoop]
      split <;> rfl
  | cons e rest ih =>
      intro n maxData
      simp only [fetchLoop]
      split
      · cases hw : deserializeWeatherData e with
        | none => rfl
        | some w =>
            simp only [List.set_nil]
            split
            · exact ih (n + 1) maxData
            · rfl
      · rfl

/-- C10: `Weather currentData[0];` declares a zero-length array, yet the
fetch is invoked on it with capacity 1 and index 0 is read afterwards
(`obsTimeLocal`, `precipRate`, `precipTotal`): under total Option-valued
indexing every access to index 0 is out of bounds (`none`), every store
to index 0 is lost, and the buffer coming back from `fetchWUdata` is
still the empty one. -/
theorem currentData_index_zero_oob :
    currentData.length = 0 ∧
    currentFetchCapacity = 1 ∧
    currentData[0]? = none ∧
    (currentData[0]?).map Weather.precipRate = none ∧
    (currentData[0]?).map Weather.precipTotal = none ∧
    (currentData[0]?).map Weather.obsTimeLocal = none ∧
    (∀ w : Weather, currentData.set 0 w = currentData) ∧
    (∀ inp : FetchInput,
      (fetchWUdata inp currentData currentFetchCapacity).buf = currentData) := by
  refine ⟨rfl, rfl, rfl, rfl, rfl, rfl, fun w => rfl, fun inp => ?_⟩
  obtain ⟨c, s, st, mk, es⟩ := inp
  unfold fetchWUdata
  cases c <;> cases s <;> cases st <;> cases mk <;>
    simp [currentData, fetchLoop_nil_buf]

/-- C3: once a current-conditions record was obtained (`m > 0`): on
`precipRate > 0` the engine sets `raindelayActive`, issues exactly one
set-rain-delay command precisely when `raindelayCount` was 0 beforehand,
and advances `raindelayCount`, wrapping to 0 at its maximum; on
`precipRate ≤ 0` it clears `raindelayActive`, resets `raindelayCount`
to 0, and issues no command. -/
theorem phaseA_rain_evaluation (m : Nat) (cur : Weather) (s : RTCState)
    (hm : 0 < m) :
    (0 < cur.precipRate →
        (phaseA m cur s).1.raindelayActive = true ∧
        (s.raindelayCount = 0 →
            (phaseA m cur s).2 = [OSCommand.setRainDelay rainDelay]) ∧
        (s.raindelayCount ≠ 0 → (phaseA m cur s).2 = []) ∧
        (s.raindelayCount < maxrainCount →
            (phaseA m cur s).1.raindelayCount = s.raindelayCount + 1) ∧
        (s.raindelayCount = maxrainCount →
            (phaseA m cur s).1.raindelayCount = 0)) ∧
    (cur.precipRate ≤ 0 →
        (phaseA m cur s).1.raindelayActive = false ∧
        (phaseA m cur s).1.raindelayCount = 0 ∧
        (phaseA m cur s).2 = []) := by
  unfold phaseA advanceRainCount
  rw [if_pos hm]
  constructor
  · intro hrain
    rw [if_pos hrain]
    refine ⟨rfl, ?_, ?_, ?_, ?_⟩
    · intro h0; simp [h0]
    · intro h0; simp [h0]
    · intro hlt; simp [if_pos hlt]
    · intro heq; simp [heq]
  · intro hrain
    rw [if_neg (not_lt.mpr hrain)]
    exact ⟨rfl, rfl, rfl⟩

/-- C3 witness: with a record in hand (`m = 1`), rain
(`precipRate = 1 > 0`) and a prior `raindelayCount = 0`, exactly one
rain-delay command is sent and the counter advances to 1. -/
theorem phaseA_rain_evaluation_witness :
    (phaseA 1 ⟨"now", 50, 70, 1, 0⟩ initialRTCState).2
        = [OSCommand.setRainDelay rainDelay] ∧
    (phaseA 1 ⟨"now", 50, 70, 1, 0⟩ initialRTCState).1.raindelayCount = 0 + 1 := by
  have h := phaseA_rain_evaluation 1 ⟨"now", 50, 70, 1, 0⟩ initialRTCState
    (by decide)
  obtain ⟨hr, -⟩ := h
  obtain ⟨-, hcmd, -, hadv, -⟩ := hr (by decide)
  exact ⟨hcmd rfl, hadv (by decide)⟩

theorem phaseBcommands_shape (n : Nat) (hist : List Weather) (cur : Weather) :
    phaseBcommands n hist cur = [] ∨
    ∃ p, phaseBcommands n hist cur = [OSCommand.setWaterLevel p] := by
  unfold phaseBcommands
  by_cases hv : validhistoryData n hist = true
  · rw [if_pos hv]
    cases hm : hist[n - 2]? with
    | none => simp [hm]
    | some y => simp [hm]
  · rw [if_neg hv]
    left
    rfl

/-- C9: in a wake cycle whose current-conditions fetch produced zero
records (`m = 0`), Phase A performs no state change: `raindelayActive`
and `raindelayCount` keep their prior values, and no set-rain-delay
command is issued anywhere in the cycle. -/
theorem cycle_no_current_record_frame (cur : Weather) (n : Nat)
    (hist : List Weather) (s : RTCState) :
    (cycleStep ⟨0, cur, n, hist⟩ s).1.raindelayActive = s.raindelayActive ∧
    (cycleStep ⟨0, cur, n, hist⟩ s).1.raindelayCount = s.raindelayCount ∧
    ∀ h : Int, OSCommand.setRainDelay h ∉ (cycleStep ⟨0, cur, n, hist⟩ s).2 := by
  have hA : phaseA 0 cur s = (s, []) := by
    unfold phaseA
    simp
  refine ⟨?_, ?_, ?_⟩
  · show ({ (phaseA 0 cur s).1 with
        bootCount := advanceBootCount (phaseA 0 cur s).1.bootCount }).raindelayActive
      = s.raindelayActive
    rw [hA]
  · show ({ (phaseA 0 cur s).1 with
        bootCount := advanceBootCount (phaseA 0 cur s).1.bootCount }).raindelayCount
      = s.raindelayCount
    rw [hA]
  · intro h hmem
    have hcm : (cycleStep ⟨0, cur, n, hist⟩ s).2
        = (phaseA 0 cur s).2 ++
          (if (phaseA 0 cur s).1.bootCount == 0 then phaseBcommands n hist cur
           else []) := rfl
    rw [hcm, hA] at hmem
    simp only [List.nil_append] at hmem
    rcases phaseBcommands_shape n hist cur with hsh | ⟨p, hsh⟩ <;>
      rw [hsh] at hmem <;> split at hmem <;> simp_all

/-- C4: when Phase B validation passes (`validhistoryData`), the
watering percentage is
`(humidityBase - yesterday.humidityAvg) + (yesterday.tempAvg - tempBase) * 4
 + (precipBase - yesterday.precipTotal - today.precipTotal) * 200 + 100`
(float sum truncated to `int`), clamped to 0 when below 10, and the
set-watering-percentage command is issued unconditionally with the
clamped value; at `humidityBase = 65`, `tempBase = 70`, `precipBase = 0`
with yesterday `{50, 80, 0}` and today `{precipTotal = 0}` the command
value is 155. -/
theorem phaseB_formula_and_command (n : Nat) (hist : List Weather)
    (y cur : Weather) (hy : hist[n - 2]? = some y)
    (hv : validhistoryData n hist = true) :
    phaseBcommands n hist cur =
      [OSCommand.setWaterLevel (clampPercent (truncToInt
          (((humidityBase - y.humidityAvg : Int) : Rat)
            + (y.tempAvg - tempBase) * 4
            + (precipBase - y.precipTotal - cur.precipTotal) * 200 + 100)))] ∧
    percentWatering ⟨"2021-06-02", 50, 80, 0, 0⟩ ⟨"now", 0, 0, 0, 0⟩ = 155 ∧
    clampPercent 155 = 155 ∧
    clampPercent 5 = 0 ∧
    phaseBcommands 2
        [⟨"2021-06-02", 50, 80, 0, 0⟩, ⟨"2021-06-03", 65, 70, 0, 0⟩]
        ⟨"now", 0, 0, 0, 0⟩
      = [OSCommand.setWaterLevel 155] := by
  refine ⟨?_, ?_, by decide, by decide, ?_⟩
  · unfold phaseBcommands
    rw [if_pos hv]
    simp only [hy]
    rfl
  · norm_num [percentWatering, truncToInt, humidityBase, tempBase, precipBase]
  · norm_num [phaseBcommands, validhistoryData, plausibleRecord, percentWatering,
      truncToInt, humidityBase, tempBase, precipBase, clampPercent]

/-- C4 witness: the concrete Phase B cycle of the claim issues
`setWaterLevel 155`. -/
theorem phaseB_formula_and_command_witness :
    phaseBcommands 2
        [⟨"2021-06-02", 50, 80, 0, 0⟩, ⟨"2021-06-03", 65, 70, 0, 0⟩]
        ⟨"now", 0, 0, 0, 0⟩
      = [OSCommand.setWaterLevel 155] := by
  have h := phaseB_formula_and_command 2
      [⟨"2021-06-02", 50, 80, 0, 0⟩, ⟨"2021-06-03", 65, 70, 0, 0⟩]
      ⟨"2021-06-02", 50, 80, 0, 0⟩ ⟨"now", 0, 0, 0, 0⟩
      (by decide) (by decide)
  exact h.2.2.2.2

/-- C5 counterexample: a current-conditions record with
`precipTotal = -1` fails the plausibility checks, yet with a plausible
history record Phase B still issues the set-watering-percentage command
(value 355, the implausible negative total even inflating it): the code
validates only `historyData[n-2]`, never `currentData[0]`. -/
theorem phaseB_current_not_validated_cex :
    plausibleRecord ⟨"now", 0, 0, 0, -1⟩ = false ∧
    phaseBcommands 2
        [⟨"2021-06-02", 50, 80, 0, 0⟩, ⟨"2021-06-03", 65, 70, 0, 0⟩]
        ⟨"now", 0, 0, 0, -1⟩
      = [OSCommand.setWaterLevel 355] := by
  refine ⟨by decide, ?_⟩
  norm_num [phaseBcommands, validhistoryData, plausibleRecord, percentWatering,
    truncToInt, humidityBase, tempBase, precipBase, clampPercent]

theorem validhistoryData_eq_true_iff (n : Nat) (hist : List Weather) :
    validhistoryData n hist = true ↔
      2 ≤ n ∧ ∃ y, hist[n - 2]? = some y ∧ plausibleRecord y = true := by
  unfold validhistoryData
  by_cases hn : n < 2
  · rw [if_pos hn]
    simp only [Bool.false_eq_true, false_iff, not_and]
    intro h2
    omega
  · rw [if_neg hn]
    cases hm : hist[n - 2]? with
    | none => simp [hm]
    | some y =>
        simp only [hm, Option.some.injEq]
        constructor
        · intro hp
          exact ⟨by omega, y, rfl, hp⟩
        · rintro ⟨-, y2, rfl, hp⟩
          exact hp

theorem phaseBcommands_eq_nil_iff (n : Nat) (hist : List Weather)
    (cur : Weather) :
    phaseBcommands n hist cur = [] ↔ validhistoryData n hist = false := by
  unfold phaseBcommands
  by_cases hv : validhistoryData n hist = true
  · rw [if_pos hv]
    obtain ⟨-, y, hy, -⟩ := (validhistoryData_eq_true_iff n hist).mp hv
    simp [hy, hv]
  · rw [if_neg hv]
    simp only [Bool.not_eq_true] at hv
    simp [hv]

/-- C5 (amended): Phase B validates only the selected history record
(`historyData[n-2]`): when the history count is below 2 or that record
fails any plausibility check (temperature in [14,113], humidity in
[0,100], precipitation rate and total nonnegative), no
set-watering-percentage command is issued; the current-conditions
record is never validated — whether a command is issued is entirely
independent of its contents.  (The unamended claim, requiring
validation of the current record too, is refuted by
`phaseB_current_not_validated_cex`.) -/
theorem phaseB_validates_only_history (n : Nat) (hist : List Weather)
    (cur cur2 : Weather) :
    ((n < 2 ∨ ∃ y, hist[n - 2]? = some y ∧ plausibleRecord y = false) →
        phaseBcommands n hist cur = []) ∧
    (phaseBcommands n hist cur = [] ↔ phaseBcommands n hist cur2 = []) := by
  constructor
  · intro h
    rw [phaseBcommands_eq_nil_iff]
    unfold validhistoryData
    by_cases hn : n < 2
    · rw [if_pos hn]
    · rw [if_neg hn]
      rcases h with h2 | ⟨y, hy, hpy⟩
      · exact absurd h2 hn
      · simp only [hy]
        exact hpy
  · rw [phaseBcommands_eq_nil_iff, phaseBcommands_eq_nil_iff]

/-- C5 witness for the amended theorem: with only one history record
(`n = 1 < 2`) no command is issued. -/
theorem phaseB_validates_only_history_witness :
    phaseBcommands 1 [⟨"y", 50, 80, 0, 0⟩] ⟨"now", 0, 0, 0, 0⟩ = [] :=
  (phaseB_validates_only_history 1 [⟨"y", 50, 80, 0, 0⟩]
      ⟨"now", 0, 0, 0, 0⟩ ⟨"now", 0, 0, 0, 0⟩).1 (Or.inl (by omega))

theorem phaseA_bootCount_eq (m : Nat) (cur : Weather) (s : RTCState) :
    (phaseA m cur s).1.bootCount = s.bootCount := by
  unfold phaseA
  split_ifs <;> rfl

theorem phaseA_rainCount_range (m : Nat) (cur : Weather) (s : RTCState)
    (h0 : 0 ≤ s.raindelayCount) (h1 : s.raindelayCount ≤ maxrainCount) :
    0 ≤ (phaseA m cur s).1.raindelayCount ∧
      (phaseA m cur s).1.raindelayCount ≤ maxrainCount := by
  unfold phaseA advanceRainCount maxrainCount at *
  split_ifs <;> simp <;> omega

theorem cycleStep_bootCount (inp : CycleInput) (s : RTCState) :
    (cycleStep inp s).1.bootCount = advanceBootCount s.bootCount := by
  show advanceBootCount (phaseA inp.m inp.current s).1.bootCount
    = advanceBootCount s.bootCount
  rw [phaseA_bootCount_eq]

theorem cycleStep_rainCount (inp : CycleInput) (s : RTCState) :
    (cycleStep inp s).1.raindelayCount
      = (phaseA inp.m inp.current s).1.raindelayCount := rfl

theorem cycleStep_preserves_range (inp : CycleInput) (s : RTCState)
    (h : countersInRange s) : countersInRange (cycleStep inp s).1 := by
  obtain ⟨h1, h2, h3, h4⟩ := h
  obtain ⟨h5, h6⟩ := phaseA_rainCount_range inp.m inp.current s h3 h4
  refine ⟨?_, ?_, ?_, ?_⟩
  · rw [cycleStep_bootCount]
    unfold advanceBootCount maxbootCount at *
    split_ifs <;> omega
  · rw [cycleStep_bootCount]
    unfold advanceBootCount maxbootCount at *
    split_ifs <;> omega
  · rw [cycleStep_rainCount]
    exact h5
  · rw [cycleStep_rainCount]
    exact h6

theorem runCycles_range (inps : List CycleInput) :
    ∀ s : RTCState, countersInRange s → countersInRange (runCycles inps s) := by
  induction inps with
  | nil => exact fun s h => h
  | cons i rest ih =>
      intro s h
      exact ih _ (cycleStep_preserves_range i s h)

/-- C6: across every sequence of wake cycles from the first-boot state,
`bootCount` and `raindelayCount` stay within [0, 11]; each advance wraps
to 0 exactly when the counter sits at its maximum; and `bootCount` is
advanced exactly once per cycle — by `advanceBootCount`, whatever the
cycle's fetched data (and hence whether Phase B ran or validated). -/
theorem counters_bounded_wrap :
    (∀ inps : List CycleInput, countersInRange (runCycles inps initialRTCState)) ∧
    (∀ (inp : CycleInput) (s : RTCState),
        (cycleStep inp s).1.bootCount = advanceBootCount s.bootCount) ∧
    (∀ b : Int, 0 ≤ b → b ≤ maxbootCount → (advanceBootCount b = 0 ↔ b = maxbootCount)) ∧
    (∀ c : Int, 0 ≤ c → c ≤ maxrainCount → (advanceRainCount c = 0 ↔ c = maxrainCount)) := by
  refine ⟨?_, cycleStep_bootCount, ?_, ?_⟩
  · intro inps
    exact runCycles_range inps initialRTCState
      (by simp [countersInRange, initialRTCState, maxbootCount, maxrainCount])
  · intro b h0 h1
    unfold advanceBootCount maxbootCount at *
    split_ifs <;> omega
  · intro c h0 h1
    unfold advanceRainCount maxrainCount at *
    split_ifs <;> omega

/-- C6 witness: one concrete rainy cycle keeps both counters in range,
and both advances wrap exactly at 11. -/
theorem counters_bounded_wrap_witness :
    countersInRange (runCycles [⟨1, ⟨"now", 50, 70, 1, 0⟩, 0, []⟩] initialRTCState) ∧
    (advanceBootCount 11 = 0 ↔ (11 : Int) = maxbootCount) ∧
    (advanceRainCount 5 = 0 ↔ (5 : Int) = maxrainCount) :=
  ⟨counters_bounded_wrap.1 [⟨1, ⟨"now", 50, 70, 1, 0⟩, 0, []⟩],
   counters_bounded_wrap.2.2.1 11 (by norm_num) (by norm_num [maxbootCount]),
   counters_bounded_wrap.2.2.2 5 (by norm_num) (by norm_num [maxrainCount])⟩
